import Mathlib

/-!
Verification development for the transaction risk-scoring pipeline.

The embedding below follows `src/risk_assessment.py` (class `RiskAssessor`:
`create_risk_tables` and `apply_risk_rules`), `src/data_processing.py`
(class `DataProcessor`: `clean_data`), and the detection metrics of
`fraud_pipeline/src/visualization.py` (`generate_summary_report`).

Modelling conventions:
* SQL `DOUBLE` amounts, weights and scores are embedded as `ℚ` (the rule
  engine only adds fixed decimal weights and compares against thresholds).
* `TIMESTAMP` values are embedded as seconds since the epoch (`Nat`);
  `EXTRACT(hour FROM ts)` is `ts % 86400 / 3600`, `CAST(ts AS DATE)` is
  `ts / 86400`, and DuckDB's `DATEDIFF('MINUTE', a, b)` (minute-boundary
  crossings) is `b / 60 - a / 60`.
* DuckDB `STDDEV` is the sample standard deviation and is `NULL` on a
  single-row group; we carry the sample *variance* as an `Option ℚ`
  (`none` = SQL `NULL`) and express every comparison
  `x > mean + 2 * stddev` in the equivalent squared form
  `x - mean > 0 ∧ (x - mean)^2 > 4 * variance`, which avoids the
  irrational square root while defining exactly the same predicate
  (both sides of the original comparison are nonnegative there).
* SQL three-valued logic: a `WHERE` condition that evaluates to `NULL`
  does not update the row, so every `NULL` branch below yields `false`.
-/

/-- A row of the `transactions` table (the columns selected into
`risk_scores` by `create_risk_tables`).  `merchant_name` and
`merchant_category` are nullable; `is_fraud` is the ground-truth label. -/
structure Txn where
  transaction_id : String
  account_number : String
  timestamp : Nat
  transaction_type : String
  amount : ℚ
  merchant_name : Option String
  merchant_category : Option String
  is_fraud : Bool
deriving DecidableEq

/-- `EXTRACT(hour FROM timestamp)` for an epoch-seconds timestamp. -/
def hourOf (ts : Nat) : Nat := ts % 86400 / 3600

/-- `CAST(timestamp AS DATE)` as a day index. -/
def dateOf (ts : Nat) : Nat := ts / 86400

/-- Minute index of a timestamp; `DATEDIFF('MINUTE', a, b)` is
`minuteOf b - minuteOf a` for `a ≤ b`. -/
def minuteOf (ts : Nat) : Nat := ts / 60

/-- `AVG` of a list of values (SQL average of a group; groups built by
`GROUP BY` are nonempty, so the `0 / 0` case never arises there). -/
def listMean (xs : List ℚ) : ℚ := xs.sum / (xs.length : ℚ)

/-- Sample variance, the square of DuckDB `STDDEV`: `NULL` (`none`) on a
group with fewer than two rows, else `Σ (x - mean)² / (n - 1)`. -/
def sampleVar (xs : List ℚ) : Option ℚ :=
  if xs.length ≤ 1 then none
  else some (((xs.map (fun x => (x - listMean xs) ^ 2)).sum) / ((xs.length : ℚ) - 1))

/-! Rule weights, from the `risk_rules` table populated by
`create_risk_tables` (`INSERT INTO risk_rules VALUES ...`). -/

/-- Weight of rule 1, `high_amount`. -/
def high_amount_weight : ℚ := 0.6

/-- Weight of rule 2, `odd_hours`. -/
def odd_hours_weight : ℚ := 0.4

/-- Weight of rule 3, `high_frequency`. -/
def high_frequency_weight : ℚ := 0.5

/-- Weight of rule 4, `unusual_merchant`. -/
def unusual_merchant_weight : ℚ := 0.3

/-- Weight of rule 5, `account_velocity`. -/
def account_velocity_weight : ℚ := 0.4

/-- The `amount` column of the transactions of one `transaction_type`
group (rule 1's `GROUP BY transaction_type`). -/
def amountsOfType (txs : List Txn) (ty : String) : List ℚ :=
  (txs.filter (fun t => t.transaction_type = ty)).map (fun t => t.amount)

/-- The `amount_stats` temp table of rule 1: for each transaction type
present in the data, `(AVG(amount), variance)` where the variance is the
square of `STDDEV(amount)` (`none` = SQL `NULL`).  A type with no
transactions has no row (`none`). -/
def amount_stats (txs : List Txn) (ty : String) : Option (ℚ × Option ℚ) :=
  let amts := amountsOfType txs ty
  if amts.isEmpty then none else some (listMean amts, sampleVar amts)

/-- Rule 1 (`high_amount`) trigger: the `UPDATE ... FROM amount_stats`
fires on `amount > avg_amount + 2 * stddev_amount` for the matching
type row.  No matching row, or a `NULL` stddev, leaves the row
unchanged.  The comparison is stated in squared form (see header). -/
def high_amount_triggered (stats : String → Option (ℚ × Option ℚ)) (t : Txn) : Bool :=
  match stats t.transaction_type with
  | none => false
  | some (_, none) => false
  | some (avg, some v) => decide (0 < t.amount - avg ∧ 4 * v < (t.amount - avg) ^ 2)

/-- Rule 2 (`odd_hours`) trigger:
`EXTRACT(hour FROM timestamp) >= 1 AND ... <= 5`. -/
def odd_hours_triggered (t : Txn) : Bool :=
  decide (1 ≤ hourOf t.timestamp ∧ hourOf t.timestamp ≤ 5)

/-- Insert a value into a sorted list of timestamps. -/
def insertSorted (x : Nat) : List Nat → List Nat
  | [] => [x]
  | y :: ys => if x ≤ y then x :: y :: ys else y :: insertSorted x ys

/-- Sort a list of timestamps ascending (the window
`ORDER BY timestamp` of rule 3). -/
def sortNat (xs : List Nat) : List Nat := xs.foldr insertSorted []

/-- Number of adjacent pairs of a sorted timestamp list whose
`DATEDIFF('MINUTE', prev, cur)` is `< 10`: each row whose `lag`
predecessor exists and is less than 10 minute-boundaries away counts 1. -/
def closeGapCount : List Nat → Nat
  | a :: b :: rest => (if minuteOf b - minuteOf a < 10 then 1 else 0) + closeGapCount (b :: rest)
  | _ => 0

/-- The timestamps of one account, ordered by `timestamp`
(rule 3's `PARTITION BY account_number ORDER BY timestamp`). -/
def accountTimestamps (txs : List Txn) (acct : String) : List Nat :=
  sortNat ((txs.filter (fun t => t.account_number = acct)).map (fun t => t.timestamp))

/-- Membership in the `high_frequency_accounts` temp table:
`HAVING COUNT(*) >= 3` over the rows with a close predecessor. -/
def high_frequency_account (txs : List Txn) (acct : String) : Bool :=
  decide (3 ≤ closeGapCount (accountTimestamps txs acct))

/-- Rule 3 (`high_frequency`) trigger:
`account_number IN (SELECT account_number FROM high_frequency_accounts)`. -/
def high_frequency_triggered (txs : List Txn) (t : Txn) : Bool :=
  high_frequency_account txs t.account_number

/-- Number of transactions of the dataset whose (non-null)
`merchant_category` equals `c`. -/
def categoryCount (txs : List Txn) (c : String) : Nat :=
  (txs.filter (fun t => t.merchant_category = some c)).length

/-- Membership in rule 4's popular-category subquery:
`GROUP BY merchant_category HAVING COUNT(*) > 10`. -/
def popularCategory (txs : List Txn) (c : String) : Bool :=
  decide (10 < categoryCount txs c)

/-- Whether the popular-category subquery returns any row at all
(needed for SQL `NOT IN` against an empty list, which is `TRUE`). -/
def anyPopularCategory (txs : List Txn) : Bool :=
  txs.any (fun t =>
    match t.merchant_category with
    | some c => popularCategory txs c
    | none => false)

/-- Rule 4 (`unusual_merchant`) trigger:
`merchant_category = 'suspicious' OR merchant_category NOT IN (popular)`.
A `NULL` category makes both disjuncts `NULL` — hence no update — except
when the popular list is empty, where `NOT IN ()` is `TRUE`. -/
def unusual_merchant_triggered (txs : List Txn) (t : Txn) : Bool :=
  match t.merchant_category with
  | some c => decide (c = "suspicious") || !(popularCategory txs c)
  | none => !(anyPopularCategory txs)

/-- Set of distinct values of a list of day indices (the key set of
`GROUP BY account_number, CAST(timestamp AS DATE)` for one account). -/
def dedupDates : List Nat → List Nat
  | [] => []
  | x :: xs => if x ∈ xs then dedupDates xs else x :: dedupDates xs

/-- The distinct active dates of one account. -/
def accountDates (txs : List Txn) (acct : String) : List Nat :=
  dedupDates ((txs.filter (fun t => t.account_number = acct)).map (fun t => dateOf t.timestamp))

/-- The `daily_count` of the `account_daily_counts` temp table for one
(account, date) pair. -/
def dailyCount (txs : List Txn) (acct : String) (d : Nat) : Nat :=
  (txs.filter (fun t => t.account_number = acct ∧ dateOf t.timestamp = d)).length

/-- The list of daily counts of one account across its active days
(the group the `account_avg_activity` aggregates range over). -/
def dailyCounts (txs : List Txn) (acct : String) : List ℚ :=
  (accountDates txs acct).map (fun d => (dailyCount txs acct d : ℚ))

/-- Rule 5 (`account_velocity`) trigger: the joined `UPDATE` fires on
`daily_count > avg_daily_count + 2 * stddev_daily_count AND
avg_daily_count > 0`; a `NULL` stddev (single active day) never fires.
The stddev comparison is stated in squared form (see header). -/
def account_velocity_triggered (txs : List Txn) (t : Txn) : Bool :=
  let counts := dailyCounts txs t.account_number
  match sampleVar counts with
  | none => false
  | some v =>
      let avg := listMean counts
      let dc : ℚ := (dailyCount txs t.account_number (dateOf t.timestamp) : ℚ)
      decide (0 < dc - avg ∧ 4 * v < (dc - avg) ^ 2 ∧ 0 < avg)

/-- The `risk_score` of a transaction after the five sequential
`UPDATE` statements of `apply_risk_rules`, starting from the `0.0`
set by `create_risk_tables`, with rule 1 reading an explicit
amount-statistics table. -/
def riskScoreWith (stats : String → Option (ℚ × Option ℚ)) (txs : List Txn) (t : Txn) : ℚ :=
  let s0 : ℚ := 0
  let s1 := if high_amount_triggered stats t then s0 + high_amount_weight else s0
  let s2 := if odd_hours_triggered t then s1 + odd_hours_weight else s1
  let s3 := if high_frequency_triggered txs t then s2 + high_frequency_weight else s2
  let s4 := if unusual_merchant_triggered txs t then s3 + unusual_merchant_weight else s3
  if account_velocity_triggered txs t then s4 + account_velocity_weight else s4

/-- The `risk_score` of the pipeline itself: the statistics table is
built from the same transaction set. -/
def riskScore (txs : List Txn) (t : Txn) : ℚ :=
  riskScoreWith (amount_stats txs) txs t

/-- Direct sum of the weights of the triggered rules (the form the spec
states for `risk_score`). -/
def triggeredWeightSum (txs : List Txn) (t : Txn) : ℚ :=
  (if high_amount_triggered (amount_stats txs) t then high_amount_weight else 0)
    + (if odd_hours_triggered t then odd_hours_weight else 0)
    + (if high_frequency_triggered txs t then high_frequency_weight else 0)
    + (if unusual_merchant_triggered txs t then unusual_merchant_weight else 0)
    + (if account_velocity_triggered txs t then account_velocity_weight else 0)

/-- The final `risk_level` classification `CASE` of `apply_risk_rules`. -/
def riskLevel (s : ℚ) : String :=
  if 0.8 ≤ s then "Very High"
  else if 0.6 ≤ s then "High"
  else if 0.3 ≤ s then "Medium"
  else "Low"

/-- The `risk_level` column of a scored transaction. -/
def riskLevelOf (txs : List Txn) (t : Txn) : String :=
  riskLevel (riskScore txs t)

/-- The final contents of the `risk_scores` table: every transaction
with its `risk_score` and `risk_level` columns. -/
def scoreTable (txs : List Txn) : List (Txn × ℚ × String) :=
  txs.map (fun t => (t, riskScore txs t, riskLevelOf txs t))

/-! Detection-quality metrics of `generate_summary_report` in
`fraud_pipeline/src/visualization.py`. -/

/-- `precision = tp / (tp + fp) if (tp + fp) > 0 else 0`. -/
def precision (tp fp : Nat) : ℚ :=
  if 0 < tp + fp then (tp : ℚ) / ((tp : ℚ) + (fp : ℚ)) else 0

/-- `recall = tp / (tp + fn) if (tp + fn) > 0 else 0` (named
`recallMetric` here because `recall` is a reserved command name). -/
def recallMetric (tp fn : Nat) : ℚ :=
  if 0 < tp + fn then (tp : ℚ) / ((tp : ℚ) + (fn : ℚ)) else 0

/-- `f1_score = 2 * (precision * recall) / (precision + recall) if
(precision + recall) > 0 else 0`. -/
def f1_score (p r : ℚ) : ℚ :=
  if 0 < p + r then 2 * (p * r) / (p + r) else 0

/-! The cleaning step of `DataProcessor.clean_data` in
`src/data_processing.py` (its data-changing steps on this model:
duplicate removal by `transaction_id` and merchant-field fill; the
remaining steps are type conversions and derived columns). -/

/-- Merchant-field fill value: a null becomes the literal string. -/
def orNA : Option String → String
  | some s => s
  | none => "N/A"

/-- Step 3 of `clean_data`: `pl.when(col.is_null()).then(lit("N/A"))
.otherwise(col)` for `merchant_name` and `merchant_category`. -/
def fillMissingMerchant (t : Txn) : Txn :=
  { t with
    merchant_name := some (orNA t.merchant_name),
    merchant_category := some (orNA t.merchant_category) }

/-- Step 1 of `clean_data`: `df.unique(subset=["transaction_id"])`
(one row kept per `transaction_id`; the kept representative is
arbitrary-but-deterministic, here the last occurrence). -/
def dedupById : List Txn → List Txn
  | [] => []
  | t :: ts =>
      if ts.any (fun u => u.transaction_id = t.transaction_id) then dedupById ts
      else t :: dedupById ts

/-- The cleaning pipeline of `clean_data` on transaction rows. -/
def clean_data (txs : List Txn) : List Txn :=
  (dedupById txs).map fillMissingMerchant

/-! Concrete transaction data used by the closed instance theorems. -/

/-- A payment at the epoch by account A. -/
def txA1 : Txn :=
  { transaction_id := "a1", account_number := "A", timestamp := 0,
    transaction_type := "PAYMENT", amount := 10, merchant_name := some "m",
    merchant_category := some "retail", is_fraud := false }

/-- Same account, 5 minutes later. -/
def txA2 : Txn := { txA1 with transaction_id := "a2", timestamp := 300 }

/-- Same account, 9 minutes after `txA1`. -/
def txA3 : Txn := { txA1 with transaction_id := "a3", timestamp := 540 }

/-- A single isolated transaction by account B. -/
def txB : Txn :=
  { txA1 with transaction_id := "b1", account_number := "B", timestamp := 100000 }

/-- Account A at `t`, `t+5min`, `t+9min`, and an isolated account B. -/
def c4txs : List Txn := [txA1, txA2, txA3, txB]

/-- One of ten transactions of the merchant category `"retail"`. -/
def mkRetail (i : Nat) : Txn :=
  { transaction_id := toString i, account_number := "A", timestamp := 86400 * i,
    transaction_type := "PAYMENT", amount := 10, merchant_name := some "m",
    merchant_category := some "retail", is_fraud := false }

/-- A dataset whose merchant category `"retail"` appears exactly 10 times. -/
def c5txs : List Txn := (List.range 10).map mkRetail

/-- A transaction with null merchant fields (a non-merchant row before
cleaning). -/
def c10tx : Txn :=
  { transaction_id := "w", account_number := "W", timestamp := 7200,
    transaction_type := "TRANSFER", amount := 5, merchant_name := none,
    merchant_category := none, is_fraud := true }

/-! Helper lemmas. -/

/-- The sequential weight accumulation of `apply_risk_rules` equals the
one-shot sum of the triggered weights. -/
lemma riskScoreWith_eq_sum (stats : String → Option (ℚ × Option ℚ)) (txs : List Txn) (t : Txn) :
    riskScoreWith stats txs t =
      (if high_amount_triggered stats t then high_amount_weight else 0)
        + (if odd_hours_triggered t then odd_hours_weight else 0)
        + (if high_frequency_triggered txs t then high_frequency_weight else 0)
        + (if unusual_merchant_triggered txs t then unusual_merchant_weight else 0)
        + (if account_velocity_triggered txs t then account_velocity_weight else 0) := by
  unfold riskScoreWith
  cases high_amount_triggered stats t <;> cases odd_hours_triggered t <;>
    cases high_frequency_triggered txs t <;> cases unusual_merchant_triggered txs t <;>
    cases account_velocity_triggered txs t <;> simp

/-- The pipeline score is the direct sum of triggered weights. -/
lemma riskScore_eq_triggeredWeightSum (txs : List Txn) (t : Txn) :
    riskScore txs t = triggeredWeightSum txs t :=
  riskScoreWith_eq_sum (amount_stats txs) txs t

/-- The triggered-weight sum is bounded by `[0, 2.2]`. -/
lemma triggeredWeightSum_bounds (txs : List Txn) (t : Txn) :
    0 ≤ triggeredWeightSum txs t ∧ triggeredWeightSum txs t ≤ 2.2 := by
  unfold triggeredWeightSum
  cases high_amount_triggered (amount_stats txs) t <;> cases odd_hours_triggered t <;>
    cases high_frequency_triggered txs t <;> cases unusual_merchant_triggered txs t <;>
    cases account_velocity_triggered txs t <;>
    norm_num [high_amount_weight, odd_hours_weight, high_frequency_weight,
      unusual_merchant_weight, account_velocity_weight]

/-- A row of the `risk_scores` table carries exactly the computed score
and level of its transaction. -/
lemma scoreTable_mem_eq {txs : List Txn} {t : Txn} {s : ℚ} {l : String}
    (h : (t, s, l) ∈ scoreTable txs) : s = riskScore txs t ∧ l = riskLevelOf txs t := by
  rcases List.mem_map.1 h with ⟨u, -, he⟩
  simp only [Prod.mk.injEq] at he
  obtain ⟨rfl, rfl, rfl⟩ := he
  exact ⟨rfl, rfl⟩

/-! Claim theorems. -/

/-- C1: every row of the scored set has `risk_score` equal to the exact
sum of the weights (0.6, 0.4, 0.5, 0.3, 0.4) of the rules whose trigger
conditions hold for it, and `0.0 ≤ risk_score ≤ 2.2`. -/
theorem risk_score_is_sum_of_triggered_weights
    (txs : List Txn) (t : Txn) (s : ℚ) (l : String)
    (h : (t, s, l) ∈ scoreTable txs) :
    s = triggeredWeightSum txs t ∧ 0 ≤ s ∧ s ≤ 2.2 := by
  obtain ⟨hs, -⟩ := scoreTable_mem_eq h
  rw [hs, riskScore_eq_triggeredWeightSum]
  exact ⟨rfl, triggeredWeightSum_bounds txs t⟩

/-- Witness for C1 at a concrete scored set. -/
theorem risk_score_is_sum_of_triggered_weights_witness :
    ((txA1, riskScore c4txs txA1, riskLevelOf c4txs txA1) ∈ scoreTable c4txs)
      ∧ (riskScore c4txs txA1 = triggeredWeightSum c4txs txA1
          ∧ 0 ≤ riskScore c4txs txA1 ∧ riskScore c4txs txA1 ≤ 2.2) :=
  have hm : (txA1, riskScore c4txs txA1, riskLevelOf c4txs txA1) ∈ scoreTable c4txs :=
    List.mem_map.2 ⟨txA1, by simp [c4txs], rfl⟩
  ⟨hm, risk_score_is_sum_of_triggered_weights c4txs txA1 _ _ hm⟩

/-- C2: the `risk_level` of every scored transaction is the total
function of its `risk_score` given by the classification `CASE`,
evaluated in priority order with first match winning:
`≥ 0.8 → "Very High"`, else `≥ 0.6 → "High"`, else `≥ 0.3 → "Medium"`,
otherwise `"Low"`. -/
theorem risk_level_is_total_function_of_score :
    (∀ (txs : List Txn) (t : Txn) (s : ℚ) (l : String),
        (t, s, l) ∈ scoreTable txs → l = riskLevel s)
      ∧ ∀ q : ℚ,
          (0.8 ≤ q → riskLevel q = "Very High")
            ∧ (q < 0.8 → 0.6 ≤ q → riskLevel q = "High")
            ∧ (q < 0.6 → 0.3 ≤ q → riskLevel q = "Medium")
            ∧ (q < 0.3 → riskLevel q = "Low") := by
  constructor
  · intro txs t s l h
    obtain ⟨hs, hl⟩ := scoreTable_mem_eq h
    rw [hl, riskLevelOf, hs]
  · intro q
    refine ⟨fun h1 => ?_, fun h1 h2 => ?_, fun h1 h2 => ?_, fun h1 => ?_⟩ <;>
      unfold riskLevel
    · rw [if_pos h1]
    · rw [if_neg (by linarith), if_pos h2]
    · rw [if_neg (by linarith), if_neg (by linarith), if_pos h2]
    · rw [if_neg (by linarith), if_neg (by linarith), if_neg (by linarith)]

/-- Witness for C2: a concrete scored row, and the classification at a
concrete score above the top threshold. -/
theorem risk_level_is_total_function_of_score_witness :
    (((txA1, riskScore c4txs txA1, riskLevelOf c4txs txA1) ∈ scoreTable c4txs)
        ∧ riskLevelOf c4txs txA1 = riskLevel (riskScore c4txs txA1))
      ∧ ((0.8 : ℚ) ≤ 0.9 ∧ riskLevel 0.9 = "Very High") :=
  have hm : (txA1, riskScore c4txs txA1, riskLevelOf c4txs txA1) ∈ scoreTable c4txs :=
    List.mem_map.2 ⟨txA1, by simp [c4txs], rfl⟩
  ⟨⟨hm, risk_level_is_total_function_of_score.1 c4txs txA1 _ _ hm⟩,
    by norm_num, (risk_level_is_total_function_of_score.2 0.9).1 (by norm_num)⟩

/-- C3 counterexample: the classification at score 0.75 is not
`"Medium"` (it is `"High"`, since `0.75 ≥ 0.6`). -/
theorem classify_75_not_medium : ¬ (riskLevel 0.75 = "Medium") := by
  have h : riskLevel 0.75 = "High" := by norm_num [riskLevel]
  rw [h]
  decide

/-- C3 amended: the classification at the four concrete scores is
`classify(0.75) = "High"` (not `"Medium"`: `0.75 ≥ 0.6`),
`classify(0.8) = "Very High"`, `classify(0.6) = "High"`, and
`classify(0.29) = "Low"`. -/
theorem classify_concrete_values :
    riskLevel 0.75 = "High" ∧ riskLevel 0.8 = "Very High"
      ∧ riskLevel 0.6 = "High" ∧ riskLevel 0.29 = "Low" := by
  refine ⟨?_, ?_, ?_, ?_⟩ <;> norm_num [riskLevel]

/-- Inserting into a sorted list grows its length by one. -/
lemma length_insertSorted (x : Nat) (l : List Nat) :
    (insertSorted x l).length = l.length + 1 := by
  induction l with
  | nil => rfl
  | cons y ys ih =>
      unfold insertSorted
      split
      · rfl
      · simp [ih]

/-- Sorting preserves length. -/
lemma length_sortNat (l : List Nat) : (sortNat l).length = l.length := by
  induction l with
  | nil => rfl
  | cons x xs ih =>
      show (insertSorted x (sortNat xs)).length = (x :: xs).length
      rw [length_insertSorted, ih, List.length_cons]

/-- C4 counterexample: for the set where account A has exactly three
transactions at `t`, `t+5min`, `t+9min` (and B one isolated one), only
two close-succession pairs exist, so rule 3 does not trigger for A's
transactions — the claim's required flagging fails. -/
theorem three_txns_within_10min_not_flagged :
    accountTimestamps c4txs txA1.account_number = [0, 300, 540]
      ∧ closeGapCount (accountTimestamps c4txs txA1.account_number) = 2
      ∧ high_frequency_triggered c4txs txA1 = false := by
  refine ⟨?_, ?_, ?_⟩ <;> decide

/-- C4 amended: an account whose ordered timestamps are exactly
`t, t+5min, t+9min` has only two sub-10-minute gaps and is NOT flagged
by rule 3 (the rule needs at least three such gaps, hence at least four
transactions); an account with at most one transaction is never flagged;
and in general rule 3 triggers exactly when the account has at least
three transactions whose gap to the immediately preceding one is under
10 minutes. -/
theorem high_frequency_rule_characterization :
    (∀ (txs : List Txn) (t : Txn) (a : Nat),
        accountTimestamps txs t.account_number = [a, a + 300, a + 540] →
          high_frequency_triggered txs t = false)
      ∧ (∀ (txs : List Txn) (t : Txn),
          (txs.filter (fun u => u.account_number = t.account_number)).length ≤ 1 →
            high_frequency_triggered txs t = false)
      ∧ (∀ (txs : List Txn) (t : Txn),
          high_frequency_triggered txs t = true
            ↔ 3 ≤ closeGapCount (accountTimestamps txs t.account_number)) := by
  refine ⟨?_, ?_, ?_⟩
  · intro txs t a h
    unfold high_frequency_triggered high_frequency_account
    rw [h]
    have g1 : (a + 300) / 60 - a / 60 < 10 := by omega
    have g2 : (a + 540) / 60 - (a + 300) / 60 < 10 := by omega
    simp [closeGapCount, minuteOf, g1, g2]
  · intro txs t h
    have hlen : (sortNat ((txs.filter (fun u => u.account_number = t.account_number)).map
        (fun u => u.timestamp))).length ≤ 1 := by
      rw [length_sortNat, List.length_map]
      exact h
    unfold high_frequency_triggered high_frequency_account accountTimestamps
    rcases hs : sortNat ((txs.filter (fun u => u.account_number = t.account_number)).map
        (fun u => u.timestamp)) with _ | ⟨x, _ | ⟨y, l3⟩⟩
    · simp [hs, closeGapCount]
    · simp [hs, closeGapCount]
    · rw [hs] at hlen
      simp at hlen
  · intro txs t
    unfold high_frequency_triggered high_frequency_account
    simp

/-- Witness for C4's amended statement at the concrete transaction set. -/
theorem high_frequency_rule_characterization_witness :
    (accountTimestamps c4txs txA1.account_number = [0, 0 + 300, 0 + 540]
        ∧ high_frequency_triggered c4txs txA1 = false)
      ∧ ((c4txs.filter (fun u => u.account_number = txB.account_number)).length ≤ 1
        ∧ high_frequency_triggered c4txs txB = false) :=
  ⟨⟨by decide, high_frequency_rule_characterization.1 c4txs txA1 0 (by decide)⟩,
   ⟨by decide, high_frequency_rule_characterization.2.1 c4txs txB (by decide)⟩⟩

/-- Rule 4 for a non-null, non-sentinel category triggers exactly on a
dataset-wide occurrence count of at most 10 (`HAVING COUNT(*) > 10`
defines the popular categories). -/
lemma unusual_merchant_iff {txs : List Txn} {t : Txn} {c : String}
    (hc : t.merchant_category = some c) (hs : c ≠ "suspicious") :
    unusual_merchant_triggered txs t = true ↔ categoryCount txs c ≤ 10 := by
  unfold unusual_merchant_triggered
  rw [hc]
  simp [hs, popularCategory, Nat.not_lt]

/-- C5 counterexample: in a dataset where the category `"retail"`
appears exactly 10 times, rule 4 DOES trigger for a `"retail"`
transaction (the claim says it must not). -/
theorem category_with_10_occurrences_triggers :
    categoryCount c5txs "retail" = 10
      ∧ (mkRetail 0).merchant_category = some "retail"
      ∧ ¬ ("retail" = "suspicious")
      ∧ unusual_merchant_triggered c5txs (mkRetail 0) = true := by
  refine ⟨?_, ?_, ?_, ?_⟩ <;> decide

/-- C5 amended: a merchant category other than `"suspicious"` is
unusual exactly when it appears in at most 10 transactions (fewer than
11) across the whole dataset; in particular rule 4 still triggers at
exactly 10 occurrences, and at 9. -/
theorem unusual_merchant_threshold
    (txs : List Txn) (t : Txn) (c : String)
    (hc : t.merchant_category = some c) (hs : c ≠ "suspicious") :
    unusual_merchant_triggered txs t = true ↔ categoryCount txs c ≤ 10 :=
  unusual_merchant_iff hc hs

/-- Witness for C5's amended statement. -/
theorem unusual_merchant_threshold_witness :
    (mkRetail 0).merchant_category = some "retail"
      ∧ "retail" ≠ "suspicious"
      ∧ unusual_merchant_triggered c5txs (mkRetail 0) = true :=
  ⟨rfl, by decide,
    (unusual_merchant_threshold c5txs (mkRetail 0) "retail" rfl (by decide)).2 (by decide)⟩

/-- A list whose elements are all equal has at most one distinct value. -/
lemma dedupDates_length_le_one {l : List Nat} {d : Nat} (h : ∀ y ∈ l, y = d) :
    (dedupDates l).length ≤ 1 := by
  induction l with
  | nil => simp [dedupDates]
  | cons x xs ih =>
      have hx : x = d := h x (List.mem_cons_self x xs)
      have hxs : ∀ y ∈ xs, y = d := fun y hy => h y (List.mem_cons_of_mem x hy)
      unfold dedupDates
      split
      · exact ih hxs
      · rename_i hmem
        cases xs with
        | nil => simp [dedupDates]
        | cons z zs =>
            exfalso
            apply hmem
            have hz : z = d := hxs z (List.mem_cons_self z zs)
            rw [hx, ← hz]
            exact List.mem_cons_self z zs

/-- An account all of whose transactions fall on one calendar date has
at most one active day, so its daily-count stddev is SQL `NULL`. -/
lemma single_active_day_var_none {txs : List Txn} {t : Txn}
    (h : ∀ u ∈ txs, u.account_number = t.account_number →
        dateOf u.timestamp = dateOf t.timestamp) :
    sampleVar (dailyCounts txs t.account_number) = none := by
  have hall : ∀ y ∈ (txs.filter (fun u => u.account_number = t.account_number)).map
      (fun u => dateOf u.timestamp), y = dateOf t.timestamp := by
    intro y hy
    rcases List.mem_map.1 hy with ⟨u, hu, rfl⟩
    rcases List.mem_filter.1 hu with ⟨hu1, hu2⟩
    exact h u hu1 (by simpa using hu2)
  have hlen : (dailyCounts txs t.account_number).length ≤ 1 := by
    unfold dailyCounts accountDates
    rw [List.length_map]
    exact dedupDates_length_le_one hall
  unfold sampleVar
  rw [if_pos hlen]

/-- C6: for an account whose transactions all fall on a single calendar
date, rule 5 (account velocity) never triggers for any of its
transactions: the undefined (SQL `NULL`) standard deviation of the
one-day sample makes the guarded comparison false rather than an error. -/
theorem single_day_account_never_triggers_velocity
    (txs : List Txn) (t : Txn)
    (h : ∀ u ∈ txs, u.account_number = t.account_number →
        dateOf u.timestamp = dateOf t.timestamp) :
    account_velocity_triggered txs t = false := by
  have hv := single_active_day_var_none h
  unfold account_velocity_triggered
  simp only [hv]

/-- Witness for C6: account A's three transactions all on day 0. -/
theorem single_day_account_never_triggers_velocity_witness :
    (∀ u ∈ c4txs, u.account_number = txA1.account_number →
        dateOf u.timestamp = dateOf txA1.timestamp)
      ∧ account_velocity_triggered c4txs txA1 = false :=
  ⟨by decide, single_day_account_never_triggers_velocity c4txs txA1 (by decide)⟩

/-- C7: a transaction whose `transaction_type` has no matching row in
the amount-statistics table leaves rule 1 non-triggering and its score
unchanged by rule 1 (equal to the score computed with an empty
statistics table), rather than the evaluation erroring. -/
theorem missing_amount_stats_row_rule1_noop
    (stats : String → Option (ℚ × Option ℚ)) (txs : List Txn) (t : Txn)
    (h : stats t.transaction_type = none) :
    high_amount_triggered stats t = false
      ∧ riskScoreWith stats txs t = riskScoreWith (fun _ => none) txs t := by
  have h1 : high_amount_triggered stats t = false := by
    unfold high_amount_triggered
    rw [h]
  have h2 : high_amount_triggered (fun _ : String => none) t = false := rfl
  exact ⟨h1, by simp only [riskScoreWith, h1, h2]⟩

/-- A statistics table with a row only for the `"DEPOSIT"` type. -/
def stats7 : String → Option (ℚ × Option ℚ) :=
  fun ty => if ty = "DEPOSIT" then some (0, none) else none

/-- Witness for C7: a table with no row for the witness's type. -/
theorem missing_amount_stats_row_rule1_noop_witness :
    stats7 txA1.transaction_type = none
      ∧ (high_amount_triggered stats7 txA1 = false
          ∧ riskScoreWith stats7 c4txs txA1 = riskScoreWith (fun _ => none) c4txs txA1) :=
  ⟨by decide, missing_amount_stats_row_rule1_noop stats7 c4txs txA1 (by decide)⟩

/-- C9: the detection metrics are `TP/(TP+FP)`, `TP/(TP+FN)` and
`2·P·R/(P+R)`, each 0 when its denominator is 0; concretely
`TP=2, FP=1, FN=1` gives precision = recall = F1 = 2/3, and
`TP=0, FP=0` gives precision 0 rather than an undefined value. -/
theorem detection_metrics_formulas :
    (∀ tp fp : Nat, tp + fp = 0 → precision tp fp = 0)
      ∧ (∀ tp fn : Nat, tp + fn = 0 → recallMetric tp fn = 0)
      ∧ (∀ p r : ℚ, p + r = 0 → f1_score p r = 0)
      ∧ (∀ tp fp : Nat, 0 < tp + fp → precision tp fp = (tp : ℚ) / ((tp : ℚ) + (fp : ℚ)))
      ∧ (∀ tp fn : Nat, 0 < tp + fn → recallMetric tp fn = (tp : ℚ) / ((tp : ℚ) + (fn : ℚ)))
      ∧ (∀ p r : ℚ, 0 < p + r → f1_score p r = 2 * (p * r) / (p + r))
      ∧ precision 2 1 = 2 / 3 ∧ recallMetric 2 1 = 2 / 3
      ∧ f1_score (precision 2 1) (recallMetric 2 1) = 2 / 3
      ∧ precision 0 0 = 0 := by
  refine ⟨?_, ?_, ?_, ?_, ?_, ?_, ?_, ?_, ?_, ?_⟩
  · intro tp fp h
    unfold precision
    simp [h]
  · intro tp fn h
    unfold recallMetric
    simp [h]
  · intro p r h
    unfold f1_score
    simp [h]
  · intro tp fp h
    unfold precision
    rw [if_pos h]
  · intro tp fn h
    unfold recallMetric
    rw [if_pos h]
  · intro p r h
    unfold f1_score
    rw [if_pos h]
  · norm_num [precision]
  · norm_num [recallMetric]
  · norm_num [f1_score, precision, recallMetric]
  · norm_num [precision]

/-- Witness for C9: the zero-denominator precision case. -/
theorem detection_metrics_formulas_witness :
    0 + 0 = 0 ∧ precision 0 0 = 0 :=
  ⟨rfl, detection_metrics_formulas.1 0 0 rfl⟩

/-- C10: after the cleaning step no transaction has a null
`merchant_name` or `merchant_category` (absent values become the
literal string `"N/A"`), and a cleaned transaction whose category is
`"N/A"` triggers the unusual-merchant rule exactly when `"N/A"` appears
in at most 10 transactions of the cleaned dataset. -/
theorem clean_data_merchant_fields_not_null :
    (∀ (txs : List Txn) (t : Txn), t ∈ clean_data txs →
        t.merchant_name ≠ none ∧ t.merchant_category ≠ none)
      ∧ (∀ (txs : List Txn) (t : Txn), t ∈ clean_data txs →
          t.merchant_category = some "N/A" →
            (unusual_merchant_triggered (clean_data txs) t = true
              ↔ categoryCount (clean_data txs) "N/A" ≤ 10)) := by
  constructor
  · intro txs t ht
    simp only [clean_data] at ht
    rcases List.mem_map.1 ht with ⟨u, -, rfl⟩
    simp [fillMissingMerchant]
  · intro txs t ht hc
    exact unusual_merchant_iff hc (by decide)

/-- Witness for C10: a non-merchant transaction cleaned into the
`"N/A"` category. -/
theorem clean_data_merchant_fields_not_null_witness :
    (fillMissingMerchant c10tx ∈ clean_data [c10tx])
      ∧ ((fillMissingMerchant c10tx).merchant_name ≠ none
          ∧ (fillMissingMerchant c10tx).merchant_category ≠ none)
      ∧ (unusual_merchant_triggered (clean_data [c10tx]) (fillMissingMerchant c10tx) = true
          ↔ categoryCount (clean_data [c10tx]) "N/A" ≤ 10) := by
  have hm : fillMissingMerchant c10tx ∈ clean_data [c10tx] := by
    simp [clean_data, dedupById]
  exact ⟨hm, clean_data_merchant_fields_not_null.1 [c10tx] _ hm,
    clean_data_merchant_fields_not_null.2 [c10tx] _ hm rfl⟩

/-- Two transactions identical in every column the rule engine can
read — all fields except possibly the `is_fraud` ground-truth label. -/
def sameExceptFraud (a b : Txn) : Prop :=
  a.transaction_id = b.transaction_id ∧ a.account_number = b.account_number
    ∧ a.timestamp = b.timestamp ∧ a.transaction_type = b.transaction_type
    ∧ a.amount = b.amount ∧ a.merchant_name = b.merchant_name
    ∧ a.merchant_category = b.merchant_category

/-- Filter-then-project is identical over label-equivalent datasets,
whenever the filter and the projection respect the equivalence. -/
lemma forall2_filter_map_congr {α : Type} (p q : Txn → Bool) (f g : Txn → α)
    (hp : ∀ a b, sameExceptFraud a b → p a = q b)
    (hf : ∀ a b, sameExceptFraud a b → f a = g b) :
    ∀ {l l' : List Txn}, List.Forall₂ sameExceptFraud l l' →
      (l.filter p).map f = (l'.filter q).map g := by
  intro l l' h
  induction h with
  | nil => rfl
  | @cons a b l1 l2 hab htail ih =>
      rw [List.filter_cons, List.filter_cons, hp a b hab]
      cases hqb : q b
      · simpa [hqb] using ih
      · simp [hqb, hf a b hab, ih]

/-- Filtered row counts agree over label-equivalent datasets. -/
lemma forall2_filter_length_congr (p q : Txn → Bool)
    (hp : ∀ a b, sameExceptFraud a b → p a = q b) :
    ∀ {l l' : List Txn}, List.Forall₂ sameExceptFraud l l' →
      (l.filter p).length = (l'.filter q).length := by
  intro l l' h
  have hm := forall2_filter_map_congr p q (fun _ => (0 : Nat)) (fun _ => (0 : Nat))
    hp (fun a b _ => rfl) h
  simpa using congrArg List.length hm

/-- Existential scans agree over label-equivalent datasets. -/
lemma forall2_any_congr {f g : Txn → Bool}
    (hfg : ∀ a b, sameExceptFraud a b → f a = g b) :
    ∀ {l l' : List Txn}, List.Forall₂ sameExceptFraud l l' → l.any f = l'.any g := by
  intro l l' h
  induction h with
  | nil => rfl
  | @cons a b l1 l2 hab htail ih => simp [List.any_cons, hfg a b hab, ih]

/-- The per-type amount column ignores fraud labels. -/
lemma sef_amountsOfType {txs txs' : List Txn}
    (h : List.Forall₂ sameExceptFraud txs txs') (ty : String) :
    amountsOfType txs ty = amountsOfType txs' ty := by
  unfold amountsOfType
  exact forall2_filter_map_congr
    (fun t => decide (t.transaction_type = ty)) (fun t => decide (t.transaction_type = ty))
    (fun t => t.amount) (fun t => t.amount)
    (fun a b hab => by obtain ⟨-, -, -, h4, -, -, -⟩ := hab; simp [h4])
    (fun a b hab => by obtain ⟨-, -, -, -, h5, -, -⟩ := hab; exact h5) h

/-- The amount-statistics table ignores fraud labels. -/
lemma sef_amount_stats {txs txs' : List Txn}
    (h : List.Forall₂ sameExceptFraud txs txs') (ty : String) :
    amount_stats txs ty = amount_stats txs' ty := by
  simp only [amount_stats, sef_amountsOfType h ty]

/-- Rule 1 ignores fraud labels. -/
lemma sef_high_amount {txs txs' : List Txn} {t t' : Txn}
    (h : List.Forall₂ sameExceptFraud txs txs') (hT : sameExceptFraud t t') :
    high_amount_triggered (amount_stats txs) t
      = high_amount_triggered (amount_stats txs') t' := by
  obtain ⟨-, -, -, h4, h5, -, -⟩ := hT
  unfold high_amount_triggered
  rw [h4, h5, sef_amount_stats h t'.transaction_type]

/-- Rule 2 ignores fraud labels. -/
lemma sef_odd_hours {t t' : Txn} (hT : sameExceptFraud t t') :
    odd_hours_triggered t = odd_hours_triggered t' := by
  obtain ⟨-, -, h3, -, -, -, -⟩ := hT
  unfold odd_hours_triggered
  rw [h3]

/-- The per-account ordered timestamp list ignores fraud labels. -/
lemma sef_accountTimestamps {txs txs' : List Txn}
    (h : List.Forall₂ sameExceptFraud txs txs') (acct : String) :
    accountTimestamps txs acct = accountTimestamps txs' acct := by
  unfold accountTimestamps
  rw [forall2_filter_map_congr
    (fun t => decide (t.account_number = acct)) (fun t => decide (t.account_number = acct))
    (fun t => t.timestamp) (fun t => t.timestamp)
    (fun a b hab => by obtain ⟨-, h2, -, -, -, -, -⟩ := hab; simp [h2])
    (fun a b hab => by obtain ⟨-, -, h3, -, -, -, -⟩ := hab; exact h3) h]

/-- Rule 3 ignores fraud labels. -/
lemma sef_high_frequency {txs txs' : List Txn} {t t' : Txn}
    (h : List.Forall₂ sameExceptFraud txs txs') (hT : sameExceptFraud t t') :
    high_frequency_triggered txs t = high_frequency_triggered txs' t' := by
  obtain ⟨-, h2, -, -, -, -, -⟩ := hT
  unfold high_frequency_triggered high_frequency_account
  rw [h2, sef_accountTimestamps h t'.account_number]

/-- Category occurrence counts ignore fraud labels. -/
lemma sef_categoryCount {txs txs' : List Txn}
    (h : List.Forall₂ sameExceptFraud txs txs') (c : String) :
    categoryCount txs c = categoryCount txs' c := by
  unfold categoryCount
  exact forall2_filter_length_congr
    (fun t => decide (t.merchant_category = some c))
    (fun t => decide (t.merchant_category = some c))
    (fun a b hab => by obtain ⟨-, -, -, -, -, -, h7⟩ := hab; simp [h7]) h

/-- Category popularity ignores fraud labels. -/
lemma sef_popularCategory {txs txs' : List Txn}
    (h : List.Forall₂ sameExceptFraud txs txs') (c : String) :
    popularCategory txs c = popularCategory txs' c := by
  unfold popularCategory
  rw [sef_categoryCount h c]

/-- Nonemptiness of the popular list ignores fraud labels. -/
lemma sef_anyPopularCategory {txs txs' : List Txn}
    (h : List.Forall₂ sameExceptFraud txs txs') :
    anyPopularCategory txs = anyPopularCategory txs' := by
  unfold anyPopularCategory
  refine forall2_any_congr (fun a b hab => ?_) h
  obtain ⟨-, -, -, -, -, -, h7⟩ := hab
  rw [h7]
  cases b.merchant_category with
  | none => rfl
  | some c => exact sef_popularCategory h c

/-- Rule 4 ignores fraud labels. -/
lemma sef_unusual_merchant {txs txs' : List Txn} {t t' : Txn}
    (h : List.Forall₂ sameExceptFraud txs txs') (hT : sameExceptFraud t t') :
    unusual_merchant_triggered txs t = unusual_merchant_triggered txs' t' := by
  obtain ⟨-, -, -, -, -, -, h7⟩ := hT
  unfold unusual_merchant_triggered
  rw [h7]
  cases t'.merchant_category with
  | none => exact congrArg (fun b => !b) (sef_anyPopularCategory h)
  | some c =>
      exact congrArg (fun b => decide (c = "suspicious") || !b) (sef_popularCategory h c)

/-- The per-account active-date set ignores fraud labels. -/
lemma sef_accountDates {txs txs' : List Txn}
    (h : List.Forall₂ sameExceptFraud txs txs') (acct : String) :
    accountDates txs acct = accountDates txs' acct := by
  unfold accountDates
  rw [forall2_filter_map_congr
    (fun t => decide (t.account_number = acct)) (fun t => decide (t.account_number = acct))
    (fun t => dateOf t.timestamp) (fun t => dateOf t.timestamp)
    (fun a b hab => by obtain ⟨-, h2, -, -, -, -, -⟩ := hab; simp [h2])
    (fun a b hab => by obtain ⟨-, -, h3, -, -, -, -⟩ := hab; simp [h3]) h]

/-- Per-day counts ignore fraud labels. -/
lemma sef_dailyCount {txs txs' : List Txn}
    (h : List.Forall₂ sameExceptFraud txs txs') (acct : String) (d : Nat) :
    dailyCount txs acct d = dailyCount txs' acct d := by
  unfold dailyCount
  exact forall2_filter_length_congr
    (fun t => decide (t.account_number = acct ∧ dateOf t.timestamp = d))
    (fun t => decide (t.account_number = acct ∧ dateOf t.timestamp = d))
    (fun a b hab => by obtain ⟨-, h2, h3, -, -, -, -⟩ := hab; simp [h2, h3]) h

/-- The per-account daily-count sample ignores fraud labels. -/
lemma sef_dailyCounts {txs txs' : List Txn}
    (h : List.Forall₂ sameExceptFraud txs txs') (acct : String) :
    dailyCounts txs acct = dailyCounts txs' acct := by
  unfold dailyCounts
  rw [sef_accountDates h acct]
  have hf : (fun d => (dailyCount txs acct d : ℚ)) = fun d => (dailyCount txs' acct d : ℚ) :=
    funext fun d => by rw [sef_dailyCount h acct d]
  rw [hf]

/-- Rule 5 ignores fraud labels. -/
lemma sef_account_velocity {txs txs' : List Txn} {t t' : Txn}
    (h : List.Forall₂ sameExceptFraud txs txs') (hT : sameExceptFraud t t') :
    account_velocity_triggered txs t = account_velocity_triggered txs' t' := by
  obtain ⟨-, h2, h3, -, -, -, -⟩ := hT
  simp only [account_velocity_triggered, h2, h3,
    sef_dailyCounts h t'.account_number,
    sef_dailyCount h t'.account_number (dateOf t'.timestamp)]

/-- The computed risk score ignores fraud labels. -/
lemma sef_riskScore {txs txs' : List Txn} {t t' : Txn}
    (h : List.Forall₂ sameExceptFraud txs txs') (hT : sameExceptFraud t t') :
    riskScore txs t = riskScore txs' t' := by
  rw [riskScore_eq_triggeredWeightSum, riskScore_eq_triggeredWeightSum]
  unfold triggeredWeightSum
  rw [sef_high_amount h hT, sef_odd_hours hT, sef_high_frequency h hT,
    sef_unusual_merchant h hT, sef_account_velocity h hT]

/-- C8: over two transaction sets identical except for the
`is_fraud` / `known_fraud` ground-truth labels, the rule engine
produces identical `risk_score` and `risk_level` for every
transaction — its output does not depend on the fraud labels. -/
theorem engine_ignores_fraud_labels
    (txs txs' : List Txn) (t t' : Txn)
    (h : List.Forall₂ sameExceptFraud txs txs') (hT : sameExceptFraud t t') :
    riskScore txs t = riskScore txs' t' ∧ riskLevelOf txs t = riskLevelOf txs' t' := by
  have hs := sef_riskScore h hT
  exact ⟨hs, by unfold riskLevelOf; rw [hs]⟩

/-- The witness transaction relabelled as fraudulent. -/
def tx8 : Txn := { txA1 with is_fraud := true }

/-- Witness for C8: one dataset with the label flipped. -/
theorem engine_ignores_fraud_labels_witness :
    (List.Forall₂ sameExceptFraud [txA1] [tx8] ∧ sameExceptFraud txA1 tx8)
      ∧ riskScore [txA1] txA1 = riskScore [tx8] tx8
      ∧ riskLevelOf [txA1] txA1 = riskLevelOf [tx8] tx8 :=
  have hT : sameExceptFraud txA1 tx8 := ⟨rfl, rfl, rfl, rfl, rfl, rfl, rfl⟩
  have hF : List.Forall₂ sameExceptFraud [txA1] [tx8] :=
    List.Forall₂.cons hT List.Forall₂.nil
  ⟨⟨hF, hT⟩, engine_ignores_fraud_labels [txA1] [tx8] txA1 tx8 hF hT⟩
